import Mathlib

/-!
Shallow embedding of `src/crate/client/converter.py`: the CrateDB value
conversion layer. Python values flowing through the converter are modelled by
the inductive type `Value`; Python exceptions by `Except PyError`; the
registry dictionary by an association list. Converter functions stored in the
registry are modelled by `ConverterFunction`, a closed set of the built-in
functions plus a `custom` constructor for user-registered functions.
-/

set_option autoImplicit false

/-- A parsed IPv4 address, modelling `ipaddress.IPv4Address`. -/
structure IPv4Address where
  oct1 : Nat
  oct2 : Nat
  oct3 : Nat
  oct4 : Nat
deriving DecidableEq

/-- A civil date-time, modelling `datetime.datetime` (naive, UTC). -/
structure PyDatetime where
  year : Int
  month : Nat
  day : Nat
  hour : Nat
  minute : Nat
  second : Nat
  microsecond : Nat
deriving DecidableEq

/-- A dynamically-typed Python value as seen by the converter: `None`,
booleans, integers, strings, lists, and the structured results of the
built-in conversion functions. -/
inductive Value where
  | null
  | bool (b : Bool)
  | int (n : Int)
  | str (s : String)
  | list (items : List Value)
  | ip (addr : IPv4Address)
  | datetime (dt : PyDatetime)

/-- Python exceptions raised by the converter module. The first three are all
`ValueError` in Python; the constructor records which raise site produced it. -/
inductive PyError where
  | valueErrorNotAValidDataType (n : Nat)
  | valueErrorNotCollectionType (n : Nat)
  | valueErrorInvalidAddress (s : String)
  | overflowError
  | typeError
deriving DecidableEq

/-- True for the errors that Python raises as `ValueError`. -/
def PyError.isValueError : PyError → Bool
  | .valueErrorNotAValidDataType _ => true
  | .valueErrorNotCollectionType _ => true
  | .valueErrorInvalidAddress _ => true
  | .overflowError => false
  | .typeError => false

/-- True when a computation in the `Except PyError` monad succeeded. -/
def isOkResult {α : Type} : Except PyError α → Bool
  | .ok _ => true
  | .error _ => false

/-- True when a computation failed with a Python `ValueError`. -/
def resultIsValueError {α : Type} : Except PyError α → Bool
  | .error e => e.isValueError
  | .ok _ => false

/-- The `DataType` enum: symbolic aliases for the numeric data type
identifiers of the CrateDB HTTP interface. -/
inductive DataType where
  | NULL
  | NOT_SUPPORTED
  | CHAR
  | BOOLEAN
  | TEXT
  | IP
  | DOUBLE
  | REAL
  | SMALLINT
  | INTEGER
  | BIGINT
  | TIMESTAMP_WITH_TZ
  | OBJECT
  | GEOPOINT
  | GEOSHAPE
  | TIMESTAMP_WITHOUT_TZ
  | UNCHECKED_OBJECT
  | REGPROC
  | TIME
  | OIDVECTOR
  | NUMERIC
  | REGCLASS
  | DATE
  | BIT
  | JSON
  | CHARACTER
  | ARRAY
deriving DecidableEq

/-- The wire codes of the enum members, in declaration order, exactly as in
the Python source (`NULL = 0` through `CHARACTER = 27`, `ARRAY = 100`). -/
def DataType.codeTable : List (Nat × DataType) :=
  [(0, .NULL), (1, .NOT_SUPPORTED), (2, .CHAR), (3, .BOOLEAN), (4, .TEXT),
   (5, .IP), (6, .DOUBLE), (7, .REAL), (8, .SMALLINT), (9, .INTEGER),
   (10, .BIGINT), (11, .TIMESTAMP_WITH_TZ), (12, .OBJECT), (13, .GEOPOINT),
   (14, .GEOSHAPE), (15, .TIMESTAMP_WITHOUT_TZ), (16, .UNCHECKED_OBJECT),
   (19, .REGPROC), (20, .TIME), (21, .OIDVECTOR), (22, .NUMERIC),
   (23, .REGCLASS), (24, .DATE), (25, .BIT), (26, .JSON), (27, .CHARACTER),
   (100, .ARRAY)]

/-- Models the enum value lookup `DataType(n)`: `some` member when `n` is a
known wire code, `none` where Python raises `ValueError`. -/
def DataType.ofValue (n : Nat) : Option DataType :=
  (DataType.codeTable.find? (fun p => p.1 = n)).map Prod.snd

/-- Decimal value of a digit run; `none` when a non-digit appears. -/
def digitsVal (cs : List Char) (acc : Nat) : Option Nat :=
  match cs with
  | [] => some acc
  | c :: rest =>
      if c.isDigit then digitsVal rest (acc * 10 + (c.toNat - 48)) else none

/-- Split a character list on the dot separator. -/
def splitDots (cs : List Char) (cur : List Char) : List (List Char) :=
  match cs with
  | [] => [cur.reverse]
  | c :: rest =>
      if c = '.' then cur.reverse :: splitDots rest [] else splitDots rest (c :: cur)

/-- Models `ipaddress` octet parsing: a run of one to three decimal digits,
value at most 255, without leading zeros. -/
def parseOctet (cs : List Char) : Option Nat :=
  match digitsVal cs 0 with
  | some n =>
      if 1 ≤ cs.length ∧ cs.length ≤ 3 ∧ n ≤ 255 ∧
          ¬(cs.length > 1 ∧ cs.head? = some '0') then
        some n
      else none
  | none => none

/-- Models `ipaddress.ip_address` on dotted-quad IPv4 strings. IPv6 and
integer address forms are not modelled; no verified claim depends on them. -/
def parseIPv4 (s : String) : Option IPv4Address :=
  match splitDots s.data [] with
  | [a, b, c, d] =>
      match parseOctet a, parseOctet b, parseOctet c, parseOctet d with
      | some x, some y, some z, some w => some ⟨x, y, z, w⟩
      | _, _, _, _ => none
  | _ => none

/-- Embeds `_to_ipaddress`: `None` maps to `None`, a textual address is
parsed, malformed input raises `ValueError`. -/
def to_ipaddress (value : Value) : Except PyError Value :=
  match value with
  | Value.null => Except.ok Value.null
  | Value.str s =>
      match parseIPv4 s with
      | some addr => Except.ok (Value.ip addr)
      | none => Except.error (PyError.valueErrorInvalidAddress s)
  | _ => Except.error PyError.typeError

/-- Civil date from a count of days since 1970-01-01 (proleptic Gregorian),
modelling the date computation inside `datetime.utcfromtimestamp`. Follows
the standard era-based days-to-civil algorithm. -/
def civilFromDays (z0 : Int) : Int × Nat × Nat :=
  let z : Int := z0 + 719468
  let era : Int := Int.fdiv z 146097
  let doe : Nat := (z - era * 146097).toNat
  let yoe : Nat := (doe - doe / 1460 + doe / 36524 - doe / 146096) / 365
  let y : Int := (yoe : Int) + era * 400
  let doy : Nat := doe - (365 * yoe + yoe / 4 - yoe / 100)
  let mp : Nat := (5 * doy + 2) / 153
  let d : Nat := doy - (153 * mp + 2) / 5 + 1
  let m : Nat := if mp < 10 then mp + 3 else mp - 9
  (if m ≤ 2 then y + 1 else y, m, d)

/-- The UTC date-time denoted by a count of milliseconds since the Unix
epoch, modelling `datetime.utcfromtimestamp(n / 1e3)` for integer `n`. -/
def datetimeFromMillis (n : Int) : PyDatetime :=
  let ms : Nat := (Int.emod n 1000).toNat
  let secs : Int := Int.ediv n 1000
  let days : Int := Int.ediv secs 86400
  let sod : Nat := (Int.emod secs 86400).toNat
  let ymd := civilFromDays days
  { year := ymd.1, month := ymd.2.1, day := ymd.2.2,
    hour := sod / 3600, minute := sod % 3600 / 60, second := sod % 60,
    microsecond := ms * 1000 }

/-- Embeds `_to_datetime`: `None` maps to `None`, a numeric value is read as
milliseconds since the Unix epoch and turned into a UTC date-time. A result
outside the `datetime` year range 1..9999 raises (Python `OverflowError`
out of `utcfromtimestamp`); non-numeric input raises `TypeError` from the
division `value / 1e3`. Floats are not modelled. -/
def to_datetime (value : Value) : Except PyError Value :=
  match value with
  | Value.null => Except.ok Value.null
  | Value.int n =>
      let dt := datetimeFromMillis n
      if 1 ≤ dt.year ∧ dt.year ≤ 9999 then Except.ok (Value.datetime dt)
      else Except.error PyError.overflowError
  | Value.bool b =>
      let dt := datetimeFromMillis (if b then 1 else 0)
      Except.ok (Value.datetime dt)
  | _ => Except.error PyError.typeError

/-- Embeds `_to_default`: passes the raw value through unchanged. -/
def to_default (value : Value) : Except PyError Value :=
  Except.ok value

/-- A conversion function value as stored in a registry: one of the module
built-ins, or an arbitrary user-registered function. -/
inductive ConverterFunction where
  | toIpaddress
  | toDatetime
  | toDefault
  | custom (f : Value → Except PyError Value)

/-- Calling a stored conversion function on a value. -/
def ConverterFunction.run : ConverterFunction → Value → Except PyError Value
  | .toIpaddress, v => to_ipaddress v
  | .toDatetime, v => to_datetime v
  | .toDefault, v => to_default v
  | .custom f, v => f v

/-- A resolved conversion plan (`ConverterDefinition` in the source): either
a single conversion function, or a pair of the array-wrapper function and
the plan for the inner type. -/
inductive ConverterDefinition where
  | fn (f : ConverterFunction)
  | compound (outer : ConverterFunction) (inner : ConverterDefinition)

/-- A raw column type descriptor (`ColTypesDefinition` in the source): a
scalar integer identifier, or a two-element list `[outer, inner]` for
collection types. -/
inductive ColTypesDefinition where
  | scalar (n : Nat)
  | arr (outer : Nat) (inner : ColTypesDefinition)

/-- Lookup in a registry dictionary, modelling `dict.get`: the value of the
first entry with the given key. -/
def dictGet (m : List (DataType × ConverterFunction)) (t : DataType) :
    Option ConverterFunction :=
  match m with
  | [] => none
  | (k, f) :: rest => if k = t then some f else dictGet rest t

/-- Key update in a registry dictionary, modelling `dict[key] = value`:
overwrite in place, append when absent. -/
def dictSet (m : List (DataType × ConverterFunction)) (t : DataType)
    (f : ConverterFunction) : List (DataType × ConverterFunction) :=
  match m with
  | [] => [(t, f)]
  | (k, g) :: rest =>
      if k = t then (t, f) :: rest else (k, g) :: dictSet rest t f

/-- Key removal from a registry dictionary, modelling
`dict.pop(key, None)`: drop the first entry with the given key. -/
def dictRemove (m : List (DataType × ConverterFunction)) (t : DataType) :
    List (DataType × ConverterFunction) :=
  match m with
  | [] => []
  | (k, g) :: rest =>
      if k = t then rest else (k, g) :: dictRemove rest t

/-- The `Converter` class: a registry mapping data types to conversion
functions, plus a fallback default function. Mutating methods are modelled
by state passing. -/
structure Converter where
  mappings : List (DataType × ConverterFunction)
  default : ConverterFunction

/-- Embeds `Converter.get`: the registered function for the type, or the
instance default when unregistered. -/
def Converter.get (self : Converter) (type_ : DataType) : ConverterFunction :=
  (dictGet self.mappings type_).getD self.default

/-- Embeds `Converter.set`: registers or overwrites the function for the
type. -/
def Converter.set (self : Converter) (type_ : DataType)
    (converter : ConverterFunction) : Converter :=
  { self with mappings := dictSet self.mappings type_ converter }

/-- Modelled from the spec: the `Converter.remove` operation is described in
the specification but the method body is not part of the sources under
`src/`. Spec wording: unregisters `type`, reverting subsequent `get` calls
to the default; no-op if absent. -/
def Converter.remove (self : Converter) (type_ : DataType) : Converter :=
  { self with mappings := dictRemove self.mappings type_ }

/-- The character-by-character iteration Python performs when a `for` loop
runs over a string: a list of one-character strings. -/
def strChars (s : String) : List Value :=
  s.data.map (fun ch => Value.str (String.mk [ch]))

/-- Embeds `Converter.convert`: apply a resolved plan to one value. A
compound plan sends `None` to the inner plan and maps the inner plan over
the items of any other value (lists and strings are the iterable `Value`
forms; the rest raise `TypeError` as non-iterable). A plain plan calls the
function. The wrapper function of a compound plan is never called. -/
def Converter.convert (self : Converter) (converter_definition : ConverterDefinition) :
    Value → Except PyError Value :=
  match converter_definition with
  | ConverterDefinition.compound _ inner_type =>
      let innerConv := self.convert inner_type
      fun value =>
        match value with
        | Value.null => innerConv Value.null
        | Value.list items => (items.mapM innerConv).map Value.list
        | Value.str s => ((strChars s).mapM innerConv).map Value.list
        | _ => Except.error PyError.typeError
  | ConverterDefinition.fn f => fun value => f.run value

/-- Embeds `Converter.col_type_to_converter`: resolve a raw type descriptor
into a conversion plan. A compound descriptor must have the `ARRAY`
identifier outside, else `ValueError`; the enum lookup itself raises
`ValueError` on unknown codes. -/
def Converter.col_type_to_converter (self : Converter) :
    ColTypesDefinition → Except PyError ConverterDefinition
  | ColTypesDefinition.scalar n =>
      match DataType.ofValue n with
      | some dt => Except.ok (ConverterDefinition.fn (self.get dt))
      | none => Except.error (PyError.valueErrorNotAValidDataType n)
  | ColTypesDefinition.arr outer inner_type =>
      match DataType.ofValue outer with
      | none => Except.error (PyError.valueErrorNotAValidDataType outer)
      | some dt =>
          if dt = DataType.ARRAY then
            (self.col_type_to_converter inner_type).map
              (fun innerDef => ConverterDefinition.compound (self.get dt) innerDef)
          else Except.error (PyError.valueErrorNotCollectionType outer)

/-- The module-level `_DEFAULT_CONVERTERS` mapping. -/
def DEFAULT_CONVERTERS : List (DataType × ConverterFunction) :=
  [(DataType.IP, ConverterFunction.toIpaddress),
   (DataType.TIMESTAMP_WITH_TZ, ConverterFunction.toDatetime),
   (DataType.TIMESTAMP_WITHOUT_TZ, ConverterFunction.toDatetime)]

/-- The `DefaultTypeConverter`: a converter whose registry holds the
built-in mapping and whose default is `_to_default`. (In the pure model the
deep copy in `DefaultTypeConverter.__init__` is invisible; aliasing is
studied separately in the heap model below.) -/
def DefaultTypeConverter : Converter :=
  { mappings := DEFAULT_CONVERTERS, default := ConverterFunction.toDefault }

/-!
Heap model. Python dictionaries are mutable objects passed by reference, so
the aliasing behaviour of `Converter.__init__` (`self._mappings = mappings
or {}`) and of `DefaultTypeConverter.__init__` (`deepcopy(...)`) is modelled
with an explicit heap of dictionary objects addressed by natural numbers.
-/

/-- A Python dictionary object living on the heap. -/
structure PyDict where
  entries : List (DataType × ConverterFunction)

/-- The heap: dictionary objects addressed by their index. -/
structure Heap where
  dicts : List PyDict

/-- Dereference a dictionary address. -/
def Heap.getDict (h : Heap) (a : Nat) : PyDict :=
  h.dicts.getD a ⟨[]⟩

/-- Overwrite the dictionary object at an address. -/
def Heap.setDict (h : Heap) (a : Nat) (d : PyDict) : Heap :=
  ⟨h.dicts.set a d⟩

/-- Allocate a fresh dictionary object; returns the new heap and the fresh
address. -/
def Heap.alloc (h : Heap) (d : PyDict) : Heap × Nat :=
  (⟨h.dicts ++ [d]⟩, h.dicts.length)

/-- A `Converter` instance as a heap object: it holds a reference to its
registry dictionary, plus its default function. -/
structure ConverterObj where
  mappingsAddr : Nat
  default : ConverterFunction

/-- Embeds `Converter.__init__` with its aliasing behaviour: the statement
`self._mappings = mappings or {}` stores the caller-supplied dictionary by
reference when it is truthy (non-empty), and allocates a fresh empty
dictionary when the argument is `None` or an empty dictionary. -/
def ConverterObj.init (h : Heap) (mappings : Option Nat)
    (default : ConverterFunction) : Heap × ConverterObj :=
  match mappings with
  | some a =>
      if (h.getDict a).entries.isEmpty then
        let p := h.alloc ⟨[]⟩
        (p.1, ⟨p.2, default⟩)
      else (h, ⟨a, default⟩)
  | none =>
      let p := h.alloc ⟨[]⟩
      (p.1, ⟨p.2, default⟩)

/-- Embeds `Converter.get` in the heap model. -/
def ConverterObj.get (self : ConverterObj) (h : Heap) (type_ : DataType) :
    ConverterFunction :=
  (dictGet (h.getDict self.mappingsAddr).entries type_).getD self.default

/-- Embeds `Converter.set` in the heap model: mutates the registry
dictionary this instance references. -/
def ConverterObj.set (self : ConverterObj) (h : Heap) (type_ : DataType)
    (converter : ConverterFunction) : Heap :=
  h.setDict self.mappingsAddr
    ⟨dictSet (h.getDict self.mappingsAddr).entries type_ converter⟩

/-- The address of the module-level `_DEFAULT_CONVERTERS` dictionary. -/
def DEFAULT_CONVERTERS_ADDR : Nat := 0

/-- The heap right after module load: it holds the `_DEFAULT_CONVERTERS`
template dictionary at address 0. -/
def moduleHeap : Heap :=
  ⟨[⟨DEFAULT_CONVERTERS⟩]⟩

/-- Embeds `DefaultTypeConverter.__init__`: `deepcopy(_DEFAULT_CONVERTERS)`
allocates a fresh dictionary holding a copy of the current template
contents, and the instance is built on that private copy. -/
def DefaultTypeConverterObj.init (h : Heap) : Heap × ConverterObj :=
  let p := h.alloc (h.getDict DEFAULT_CONVERTERS_ADDR)
  ConverterObj.init p.1 (some p.2) ConverterFunction.toDefault

/-- Scenario for the instance-independence claims: a first
`DefaultTypeConverter` instance created on the module heap. -/
def dtcState1 : Heap × ConverterObj :=
  DefaultTypeConverterObj.init moduleHeap

/-- Scenario continued: a second `DefaultTypeConverter` instance created
after the first. -/
def dtcState2 : Heap × ConverterObj :=
  DefaultTypeConverterObj.init dtcState1.1

/-- Scenario for the registry-sharing claim: a heap holding one non-empty
dictionary object, which is then passed to two `Converter` constructors. -/
def sharedDictHeap : Heap :=
  ⟨[⟨[(DataType.TEXT, ConverterFunction.toDefault)]⟩]⟩

/-- First converter constructed from the shared dictionary at address 0. -/
def sharedConv1 : Heap × ConverterObj :=
  ConverterObj.init sharedDictHeap (some 0) ConverterFunction.toDefault

/-- Second converter constructed from the same shared dictionary. -/
def sharedConv2 : Heap × ConverterObj :=
  ConverterObj.init sharedConv1.1 (some 0) ConverterFunction.toDefault

/-- Scenario continued: `set` called on the first shared-dict converter. -/
def sharedHeapAfterSet : Heap :=
  sharedConv1.2.set sharedConv2.1 DataType.IP ConverterFunction.toDatetime

/-!
Helper lemmas.
-/

theorem except_bind_ok {ε α β : Type} (a : α) (g : α → Except ε β) :
    (Except.ok a >>= g) = g a := rfl

theorem except_bind_error {ε α β : Type} (e : ε) (g : α → Except ε β) :
    ((Except.error e : Except ε α) >>= g) = Except.error e := rfl

/-- A successful `mapM` in the `Except` monad produces a list of the same
length whose entries are the successful images of the input entries. -/
theorem mapM_except_ok_spec {ε α β : Type} (f : α → Except ε β) (xs : List α) :
    ∀ ys : List β, xs.mapM f = Except.ok ys →
      ys.length = xs.length ∧
      ∀ (i : Nat) (h1 : i < xs.length) (h2 : i < ys.length),
        f (xs.get ⟨i, h1⟩) = Except.ok (ys.get ⟨i, h2⟩) := by
  induction xs with
  | nil =>
      intro ys h
      simp only [List.mapM_nil] at h
      have hys : ys = [] := by
        cases h; rfl
      subst hys
      exact ⟨rfl, fun i h1 _ => absurd h1 (by simp)⟩
  | cons x rest ih =>
      intro ys h
      rw [List.mapM_cons] at h
      cases hx : f x with
      | error e =>
          rw [hx, except_bind_error] at h
          cases h
      | ok y =>
          rw [hx, except_bind_ok] at h
          cases hrest : rest.mapM f with
          | error e =>
              rw [hrest, except_bind_error] at h
              cases h
          | ok ys2 =>
              rw [hrest, except_bind_ok] at h
              have hys : ys = y :: ys2 := by
                cases h; rfl
              subst hys
              obtain ⟨hlen, hidx⟩ := ih ys2 hrest
              refine ⟨by simp [hlen], ?_⟩
              intro i h1 h2
              cases i with
              | zero => simpa using hx
              | succ j =>
                  have hj1 : j < rest.length := by
                    simpa using h1
                  have hj2 : j < ys2.length := by
                    simpa using h2
                  simpa using hidx j hj1 hj2

/-- The only wire code mapped to the `ARRAY` member is 100. -/
theorem ofValue_eq_ARRAY {n : Nat}
    (h : DataType.ofValue n = some DataType.ARRAY) : n = 100 := by
  unfold DataType.ofValue at h
  rcases Option.map_eq_some'.mp h with ⟨p, hfind, hsnd⟩
  have hmem := List.mem_of_find?_eq_some hfind
  have hpred := List.find?_some hfind
  have hfst : p.1 = n := by simpa using hpred
  have hall : ∀ q ∈ DataType.codeTable, q.2 = DataType.ARRAY → q.1 = 100 := by decide
  rw [← hfst]
  exact hall p hmem hsnd

theorem dictGet_dictSet_self (m : List (DataType × ConverterFunction))
    (t : DataType) (f : ConverterFunction) :
    dictGet (dictSet m t f) t = some f := by
  induction m with
  | nil => simp [dictSet, dictGet]
  | cons p rest ih =>
      obtain ⟨k, g⟩ := p
      by_cases hk : k = t
      · subst hk
        simp [dictSet, dictGet]
      · simp [dictSet, dictGet, hk, ih]

theorem dictGet_eq_none_of_not_mem (m : List (DataType × ConverterFunction))
    (t : DataType) (h : t ∉ m.map Prod.fst) : dictGet m t = none := by
  induction m with
  | nil => rfl
  | cons p rest ih =>
      obtain ⟨k, g⟩ := p
      simp only [List.map_cons, List.mem_cons] at h
      push_neg at h
      have hk : k ≠ t := fun hkt => h.1 hkt.symm
      simp [dictGet, hk]
      exact ih h.2

theorem dictGet_dictRemove_self (m : List (DataType × ConverterFunction))
    (t : DataType) (hnd : (m.map Prod.fst).Nodup) :
    dictGet (dictRemove m t) t = none := by
  induction m with
  | nil => rfl
  | cons p rest ih =>
      obtain ⟨k, g⟩ := p
      simp only [List.map_cons, List.nodup_cons] at hnd
      by_cases hk : k = t
      · subst hk
        simp only [dictRemove, if_pos rfl]
        exact dictGet_eq_none_of_not_mem rest k hnd.1
      · simp [dictRemove, dictGet, hk]
        exact ih hnd.2

theorem dictRemove_absent (m : List (DataType × ConverterFunction))
    (t : DataType) (h : dictGet m t = none) : dictRemove m t = m := by
  induction m with
  | nil => rfl
  | cons p rest ih =>
      obtain ⟨k, g⟩ := p
      by_cases hk : k = t
      · subst hk
        simp [dictGet] at h
      · simp only [dictGet, if_neg hk] at h
        simp [dictRemove, hk, ih h]

theorem getD_set_ne (l : List PyDict) (i j : Nat) (d : PyDict) (hij : i ≠ j) :
    (l.set i d).getD j ⟨[]⟩ = l.getD j ⟨[]⟩ := by
  induction l generalizing i j with
  | nil => simp
  | cons a rest ih =>
      cases i with
      | zero =>
          cases j with
          | zero => exact absurd rfl hij
          | succ j2 => simp [List.getD]
      | succ i2 =>
          cases j with
          | zero => simp [List.getD]
          | succ j2 =>
              have := ih i2 j2 (fun he => hij (by rw [he]))
              simpa [List.getD] using this

/-- Frame property of the heap model: `set` on one converter object does not
change `get` on a converter object holding a different registry address. -/
theorem convObj_get_set_ne (h : Heap) (c1 c2 : ConverterObj) (t t2 : DataType)
    (f : ConverterFunction) (hne : c1.mappingsAddr ≠ c2.mappingsAddr) :
    c2.get (c1.set h t f) t2 = c2.get h t2 := by
  unfold ConverterObj.get ConverterObj.set Heap.setDict Heap.getDict
  rw [getD_set_ne _ _ _ _ hne]

/-- Two constructions with `mappings = None` allocate distinct registry
dictionaries. -/
theorem init_none_fresh (h : Heap) (d1 d2 : ConverterFunction) :
    ((ConverterObj.init h none d1).2).mappingsAddr ≠
      ((ConverterObj.init (ConverterObj.init h none d1).1 none d2).2).mappingsAddr := by
  simp [ConverterObj.init, Heap.alloc]

/-!
Claim theorems.
-/

/-- C1: resolving a compound descriptor `[outer, inner]` fails with a
`ValueError` (the InvalidTypeDescriptor failure of the spec) whenever the
outer identifier is not the array identifier 100 — the dedicated
collection-type `ValueError` when the outer identifier is a known code —
and with outer identifier 100 it returns the pair of `get` on the array
type and the recursively resolved inner plan, to arbitrary nesting depth;
in particular `[100, [100, 5]]` resolves successfully and `[5, 100]`
fails. -/
theorem c1_resolve_compound_descriptor :
    (∀ (c : Converter) (outer : Nat) (inner : ColTypesDefinition), outer ≠ 100 →
        resultIsValueError
          (c.col_type_to_converter (ColTypesDefinition.arr outer inner)) = true) ∧
    (∀ (c : Converter) (outer : Nat) (inner : ColTypesDefinition) (dt : DataType),
        DataType.ofValue outer = some dt → dt ≠ DataType.ARRAY →
        c.col_type_to_converter (ColTypesDefinition.arr outer inner) =
          Except.error (PyError.valueErrorNotCollectionType outer)) ∧
    (∀ (c : Converter) (inner : ColTypesDefinition),
        c.col_type_to_converter (ColTypesDefinition.arr 100 inner) =
          (c.col_type_to_converter inner).map
            (fun d => ConverterDefinition.compound (c.get DataType.ARRAY) d)) ∧
    isOkResult (DefaultTypeConverter.col_type_to_converter
      (ColTypesDefinition.arr 100 (ColTypesDefinition.arr 100
        (ColTypesDefinition.scalar 5)))) = true ∧
    resultIsValueError (DefaultTypeConverter.col_type_to_converter
      (ColTypesDefinition.arr 5 (ColTypesDefinition.scalar 100))) = true := by
  refine ⟨?_, ?_, ?_, rfl, rfl⟩
  · intro c outer inner hne
    cases hv : DataType.ofValue outer with
    | none =>
        simp [Converter.col_type_to_converter, hv, resultIsValueError,
          PyError.isValueError]
    | some dt =>
        have hdt : dt ≠ DataType.ARRAY := by
          intro he
          subst he
          exact hne (ofValue_eq_ARRAY hv)
        simp [Converter.col_type_to_converter, hv, hdt, resultIsValueError,
          PyError.isValueError]
  · intro c outer inner dt hv hdt
    simp [Converter.col_type_to_converter, hv, hdt]
  · intro c inner
    rfl

/-- Witness for C1: the concrete mismatched descriptor `[5, 100]` fails with
a `ValueError`. -/
theorem c1_witness :
    resultIsValueError (DefaultTypeConverter.col_type_to_converter
      (ColTypesDefinition.arr 5 (ColTypesDefinition.scalar 100))) = true :=
  c1_resolve_compound_descriptor.1 DefaultTypeConverter 5
    (ColTypesDefinition.scalar 100) (by decide)

/-- C2: applying a compound plan to a non-null sequence value maps the inner
plan over every item, and on success the output sequence has exactly the
input length with the converted item of index `i` at index `i`. -/
theorem c2_compound_maps_items (c : Converter) (w : ConverterFunction)
    (inner : ConverterDefinition) (xs : List Value) :
    c.convert (ConverterDefinition.compound w inner) (Value.list xs) =
      (xs.mapM (c.convert inner)).map Value.list ∧
    ∀ ys : List Value, xs.mapM (c.convert inner) = Except.ok ys →
      c.convert (ConverterDefinition.compound w inner) (Value.list xs) =
        Except.ok (Value.list ys) ∧
      ys.length = xs.length ∧
      ∀ (i : Nat) (h1 : i < xs.length) (h2 : i < ys.length),
        c.convert inner (xs.get ⟨i, h1⟩) = Except.ok (ys.get ⟨i, h2⟩) := by
  refine ⟨rfl, ?_⟩
  intro ys hys
  obtain ⟨hlen, hidx⟩ := mapM_except_ok_spec (c.convert inner) xs ys hys
  refine ⟨?_, hlen, hidx⟩
  show (xs.mapM (c.convert inner)).map Value.list = Except.ok (Value.list ys)
  rw [hys]
  rfl

/-- Witness for C2: the round-trip example of the spec, two textual IP
addresses converted in order under an array-of-IP plan. -/
theorem c2_witness :
    DefaultTypeConverter.convert
        (ConverterDefinition.compound ConverterFunction.toDefault
          (ConverterDefinition.fn ConverterFunction.toIpaddress))
        (Value.list [Value.str "10.10.10.1", Value.str "10.10.10.2"]) =
      Except.ok (Value.list
        [Value.ip ⟨10, 10, 10, 1⟩, Value.ip ⟨10, 10, 10, 2⟩]) ∧
    ([Value.ip ⟨10, 10, 10, 1⟩, Value.ip ⟨10, 10, 10, 2⟩] : List Value).length =
      ([Value.str "10.10.10.1", Value.str "10.10.10.2"] : List Value).length := by
  have h := (c2_compound_maps_items DefaultTypeConverter
    ConverterFunction.toDefault (ConverterDefinition.fn ConverterFunction.toIpaddress)
    [Value.str "10.10.10.1", Value.str "10.10.10.2"]).2
    [Value.ip ⟨10, 10, 10, 1⟩, Value.ip ⟨10, 10, 10, 2⟩] rfl
  exact ⟨h.1, h.2.1⟩

/-- C3: applying a compound plan to a null value returns the inner plan
applied to null rather than short-circuiting to a bare null; a custom inner
converter therefore decides what null means, as the second conjunct shows on
a placeholder-producing inner function. -/
theorem c3_compound_null_invokes_inner :
    (∀ (c : Converter) (w : ConverterFunction) (inner : ConverterDefinition),
        c.convert (ConverterDefinition.compound w inner) Value.null =
          c.convert inner Value.null) ∧
    DefaultTypeConverter.convert
        (ConverterDefinition.compound ConverterFunction.toDefault
          (ConverterDefinition.fn (ConverterFunction.custom
            (fun _ => Except.ok (Value.str "placeholder")))))
        Value.null = Except.ok (Value.str "placeholder") :=
  ⟨fun _ _ _ => rfl, rfl⟩

/-- C4 counterexample: resolving the scalar identifier 17, which lies
outside the enumerated set, is an error — the enum lookup `DataType(17)`
raises `ValueError` — and not a silent fallback to the default function. -/
theorem c4_counterexample :
    DefaultTypeConverter.col_type_to_converter (ColTypesDefinition.scalar 17) =
      Except.error (PyError.valueErrorNotAValidDataType 17) ∧
    isOkResult (DefaultTypeConverter.col_type_to_converter
      (ColTypesDefinition.scalar 17)) = false :=
  ⟨rfl, rfl⟩

/-- C4 amended: a scalar identifier that is a known enum code but has no
registered converter silently resolves to the default function, while a
scalar identifier outside the enumerated set fails with `ValueError` from
the enum lookup. -/
theorem c4_amended_unknown_scalar :
    (∀ (c : Converter) (n : Nat) (dt : DataType),
        DataType.ofValue n = some dt → dictGet c.mappings dt = none →
        c.col_type_to_converter (ColTypesDefinition.scalar n) =
          Except.ok (ConverterDefinition.fn c.default)) ∧
    (∀ (c : Converter) (n : Nat), DataType.ofValue n = none →
        c.col_type_to_converter (ColTypesDefinition.scalar n) =
          Except.error (PyError.valueErrorNotAValidDataType n)) := by
  constructor
  · intro c n dt hv hget
    simp [Converter.col_type_to_converter, hv, Converter.get, hget]
  · intro c n hv
    simp [Converter.col_type_to_converter, hv]

/-- Witness for C4: scalar 4 (TEXT, unregistered) resolves to the default
function; scalar 17 (unknown code) fails. -/
theorem c4_witness :
    (DefaultTypeConverter.col_type_to_converter (ColTypesDefinition.scalar 4) =
      Except.ok (ConverterDefinition.fn DefaultTypeConverter.default)) ∧
    (DefaultTypeConverter.col_type_to_converter (ColTypesDefinition.scalar 17) =
      Except.error (PyError.valueErrorNotAValidDataType 17)) :=
  ⟨c4_amended_unknown_scalar.1 DefaultTypeConverter 4 DataType.TEXT rfl rfl,
   c4_amended_unknown_scalar.2 DefaultTypeConverter 17 rfl⟩

/-- C5: `get` returns the function registered for a type — whether put there
by `set` or present in the constructor mapping — and the instance default
for an unregistered type; being total, it never fails. -/
theorem c5_get_registered_or_default (c : Converter) (t : DataType) :
    (∀ f : ConverterFunction, (c.set t f).get t = f) ∧
    (∀ f : ConverterFunction, dictGet c.mappings t = some f → c.get t = f) ∧
    (dictGet c.mappings t = none → c.get t = c.default) := by
  refine ⟨?_, ?_, ?_⟩
  · intro f
    unfold Converter.get Converter.set
    simp [dictGet_dictSet_self]
  · intro f hf
    unfold Converter.get
    rw [hf]
    rfl
  · intro h
    unfold Converter.get
    rw [h]
    rfl

/-- Witness for C5: a function registered for BIT is returned by `get`, the
constructor-registered IP converter is returned, and the unregistered TEXT
type falls back to the default. -/
theorem c5_witness :
    ((DefaultTypeConverter.set DataType.BIT ConverterFunction.toDatetime).get
        DataType.BIT = ConverterFunction.toDatetime) ∧
    (DefaultTypeConverter.get DataType.IP = ConverterFunction.toIpaddress) ∧
    (DefaultTypeConverter.get DataType.TEXT = ConverterFunction.toDefault) :=
  ⟨(c5_get_registered_or_default DefaultTypeConverter DataType.BIT).1
      ConverterFunction.toDatetime,
   (c5_get_registered_or_default DefaultTypeConverter DataType.IP).2.1
      ConverterFunction.toIpaddress rfl,
   (c5_get_registered_or_default DefaultTypeConverter DataType.TEXT).2.2 rfl⟩

/-- C6: `remove` followed by `get` returns the default function (for a
registry whose keys are unique, the dictionary invariant), and `remove` is a
no-op when the type is absent. -/
theorem c6_remove_reverts_to_default (c : Converter) (t : DataType)
    (hkeys : (c.mappings.map Prod.fst).Nodup) :
    (c.remove t).get t = c.default ∧
    (dictGet c.mappings t = none → c.remove t = c) := by
  constructor
  · unfold Converter.get Converter.remove
    simp [dictGet_dictRemove_self _ _ hkeys]
  · intro h
    unfold Converter.remove
    rw [dictRemove_absent _ _ h]

/-- Witness for C6: removing the registered IP converter reverts `get` to
the default, and removing the absent BIT entry leaves the converter
unchanged. -/
theorem c6_witness :
    ((DefaultTypeConverter.remove DataType.IP).get DataType.IP =
      ConverterFunction.toDefault) ∧
    (DefaultTypeConverter.remove DataType.BIT = DefaultTypeConverter) :=
  ⟨(c6_remove_reverts_to_default DefaultTypeConverter DataType.IP (by decide)).1,
   (c6_remove_reverts_to_default DefaultTypeConverter DataType.BIT (by decide)).2 rfl⟩

/-- C7: the default timestamp conversion maps null to null, reads an integer
as milliseconds since the Unix epoch producing a UTC date-time (whenever the
result lies in the representable year range), and converting 1658167836758
under descriptor 11 yields the UTC date-time 2022-07-18T18:10:36.758. -/
theorem c7_timestamp_milliseconds_utc :
    to_datetime Value.null = Except.ok Value.null ∧
    (∀ n : Int, 1 ≤ (datetimeFromMillis n).year →
        (datetimeFromMillis n).year ≤ 9999 →
        to_datetime (Value.int n) =
          Except.ok (Value.datetime (datetimeFromMillis n))) ∧
    (DefaultTypeConverter.col_type_to_converter (ColTypesDefinition.scalar 11)).bind
        (fun plan => DefaultTypeConverter.convert plan (Value.int 1658167836758)) =
      Except.ok (Value.datetime ⟨2022, 7, 18, 18, 10, 36, 758000⟩) := by
  refine ⟨rfl, ?_, rfl⟩
  intro n h1 h2
  unfold to_datetime
  simp [h1, h2]

/-- Witness for C7: the timestamp 1658167836758 lies in range and converts
to its epoch-milliseconds date-time. -/
theorem c7_witness :
    to_datetime (Value.int 1658167836758) =
      Except.ok (Value.datetime (datetimeFromMillis 1658167836758)) :=
  c7_timestamp_milliseconds_utc.2.1 1658167836758 (by decide) (by decide)

/-- C8: in the two-instance scenario on the module heap, each
`DefaultTypeConverter` instance owns a deep copy of the built-in mapping:
mutating the registry of either instance changes neither what `get` returns
on the other instance nor the module-level template dictionary. -/
theorem c8_default_instances_independent (t t2 : DataType)
    (f : ConverterFunction) :
    dtcState2.2.get (dtcState1.2.set dtcState2.1 t f) t2 =
      dtcState2.2.get dtcState2.1 t2 ∧
    dtcState1.2.get (dtcState2.2.set dtcState2.1 t f) t2 =
      dtcState1.2.get dtcState2.1 t2 ∧
    (dtcState1.2.set dtcState2.1 t f).getDict DEFAULT_CONVERTERS_ADDR =
      moduleHeap.getDict DEFAULT_CONVERTERS_ADDR ∧
    (dtcState2.2.set dtcState2.1 t f).getDict DEFAULT_CONVERTERS_ADDR =
      moduleHeap.getDict DEFAULT_CONVERTERS_ADDR :=
  ⟨rfl, rfl, rfl, rfl⟩

/-- C9 counterexample: two converters constructed from the same non-empty
mapping dictionary share it by reference, so `set` on the first changes
what `get` returns on the second: after registering the datetime converter
for IP through the first instance, the second instance returns it, whereas
before the mutation it returned the default. -/
theorem c9_counterexample :
    sharedConv2.2.get sharedHeapAfterSet DataType.IP =
      ConverterFunction.toDatetime ∧
    sharedConv2.2.get sharedConv2.1 DataType.IP =
      ConverterFunction.toDefault ∧
    ConverterFunction.toDatetime ≠ ConverterFunction.toDefault :=
  ⟨rfl, rfl, fun h => ConverterFunction.noConfusion h⟩

/-- C9 amended: instances whose registries live at distinct addresses are
independent — `set` on one never changes `get` on the other — and
construction with no mapping argument always allocates a fresh registry;
independence fails only for instances constructed from the same non-empty
mapping object, which the constructor stores by reference. -/
theorem c9_amended_distinct_registries :
    (∀ (h : Heap) (c1 c2 : ConverterObj) (t t2 : DataType)
        (f : ConverterFunction), c1.mappingsAddr ≠ c2.mappingsAddr →
        c2.get (c1.set h t f) t2 = c2.get h t2) ∧
    (∀ (h : Heap) (d1 d2 : ConverterFunction),
        ((ConverterObj.init h none d1).2).mappingsAddr ≠
          ((ConverterObj.init (ConverterObj.init h none d1).1 none d2).2).mappingsAddr) :=
  ⟨fun h c1 c2 t t2 f hne => convObj_get_set_ne h c1 c2 t t2 f hne,
   init_none_fresh⟩

/-- Witness for C9: two registries at the distinct addresses 0 and 1, with
the mutation of one invisible through the other, and the freshness of two
parameterless constructions on the module heap. -/
theorem c9_witness :
    (ConverterObj.mk 1 ConverterFunction.toDefault).get
        ((ConverterObj.mk 0 ConverterFunction.toDefault).set sharedDictHeap
          DataType.IP ConverterFunction.toDatetime) DataType.TEXT =
      (ConverterObj.mk 1 ConverterFunction.toDefault).get sharedDictHeap
        DataType.TEXT ∧
    ((ConverterObj.init moduleHeap none ConverterFunction.toDefault).2).mappingsAddr ≠
      ((ConverterObj.init
          (ConverterObj.init moduleHeap none ConverterFunction.toDefault).1
          none ConverterFunction.toDefault).2).mappingsAddr :=
  ⟨c9_amended_distinct_registries.1 sharedDictHeap
      (ConverterObj.mk 0 ConverterFunction.toDefault)
      (ConverterObj.mk 1 ConverterFunction.toDefault)
      DataType.IP DataType.TEXT ConverterFunction.toDatetime (by decide),
   c9_amended_distinct_registries.2 moduleHeap
      ConverterFunction.toDefault ConverterFunction.toDefault⟩

/-- C10: the wrapper function stored as the first component of a compound
plan never affects the output of `convert`: plans differing only in that
component behave identically on every value, because `convert` never
invokes the wrapper function. -/
theorem c10_wrapper_function_ignored (c : Converter) (f g : ConverterFunction)
    (inner : ConverterDefinition) (v : Value) :
    c.convert (ConverterDefinition.compound f inner) v =
      c.convert (ConverterDefinition.compound g inner) v :=
  rfl
